import Mathlib

/-!
# UltraFTP — shallow embedding and verification

This file embeds the protocol-relevant parts of the UltraFTP repository
(an FTP server/client in Go) as executable Lean definitions and proves
properties of them.

Embedding conventions:
* Go strings are modelled as `List Char`; the Lean `String.data` of a
  literal is used for concrete string constants.
* Go library functions that the repository calls (`strconv.Atoi`,
  `strconv.Itoa`, `strings.Split`, `strings.TrimSpace`,
  `path/filepath.Clean`, `path/filepath.Join`, `net/url` parsing) are
  modelled from their documented semantics, since they are not part of
  the repository's own sources.
* I/O effects (sockets, the filesystem) are modelled by explicit oracle
  fields in an `Env` structure, and the observable actions of a handler
  are recorded as an ordered event trace (`Ev`).
-/

namespace UltraFTP

/-! ## Decimal digits (models `strconv.Itoa` / `strconv.Atoi`) -/

/-- The decimal digit character for a digit value `d < 10`. -/
def digitChar : Nat → Char
  | 0 => '0' | 1 => '1' | 2 => '2' | 3 => '3' | 4 => '4'
  | 5 => '5' | 6 => '6' | 7 => '7' | 8 => '8' | 9 => '9'
  | _ => '?'

/-- The digit value of a decimal digit character. -/
def charToDigit (c : Char) : Nat := c.toNat - 48

/-- ASCII decimal digit test (as used by `strconv` parsing). -/
def isDigitCh (c : Char) : Bool := '0' ≤ c && c ≤ '9'

/-- Decimal rendering of a natural number, most significant digit first.
Models Go `strconv.Itoa` on non-negative values. -/
def natRepr (n : Nat) : List Char :=
  if n = 0 then ['0'] else ((Nat.digits 10 n).map digitChar).reverse

/-- Parse an unsigned decimal digit string; `none` unless the string is
non-empty and all digits.  This is the digit-consuming core of Go
`strconv.ParseInt` (base 10, no overflow modelled: all uses in this file
are within machine-int range). -/
def parseDigits (cs : List Char) : Option Nat :=
  if cs = [] then none
  else if cs.all isDigitCh then
    some (cs.foldl (fun a c => a * 10 + charToDigit c) 0)
  else none

/-- Models Go `strconv.Atoi` (for values within machine-int range): an
optional leading sign followed by a non-empty run of decimal digits. -/
def goAtoi (cs : List Char) : Option Int :=
  match cs with
  | [] => none
  | c :: rest =>
    if c = '+' then (parseDigits rest).map Int.ofNat
    else if c = '-' then (parseDigits rest).map (fun n => -(n : Int))
    else (parseDigits cs).map Int.ofNat

/-- Models Go `strconv.Itoa` on `int` values. -/
def goItoa (i : Int) : List Char :=
  if i < 0 then '-' :: natRepr (-i).toNat else natRepr i.toNat

/-! ## String helpers (model `strings.Split`, `strings.TrimSpace`) -/

/-- Models Go `strings.Split(s, sep)` for a one-character separator:
always returns at least one part; adjacent separators yield empty parts. -/
def splitOn (sep : Char) : List Char → List (List Char)
  | [] => [[]]
  | c :: cs =>
    if c = sep then [] :: splitOn sep cs
    else
      match splitOn sep cs with
      | [] => [[c]]
      | p :: ps => (c :: p) :: ps

/-- Joins parts with a one-character separator (the inverse direction of
`splitOn`); models how the PASV payload is assembled by `fmt.Sprintf`
with comma-separated verbs. -/
def joinWith (sep : Char) : List (List Char) → List Char
  | [] => []
  | [p] => p
  | p :: q :: ps => p ++ sep :: joinWith sep (q :: ps)

/-- Whitespace as recognized by Go `unicode.IsSpace` (ASCII range). -/
def isGoSpace (c : Char) : Bool :=
  c = ' ' || c = '\t' || c = '\n' || c = '\r' ||
  c = Char.ofNat 11 || c = Char.ofNat 12

/-- Models Go `strings.TrimSpace` (ASCII inputs). -/
def trimSpace (cs : List Char) : List Char :=
  ((cs.dropWhile isGoSpace).reverse.dropWhile isGoSpace).reverse

/-! ## PASV payload codec (C4)

The server (`handlePassive`, `cmd/client.go` lines 355–365) advertises
its data endpoint as `h1,h2,h3,h4,p1,p2` with `p1 = port / 256`,
`p2 = port % 256`; the client (`enterPassiveMode`, lines 356–373 of the
client source) splits the payload on commas, runs
`strconv.Atoi(strings.TrimSpace(part))` on each part, and reconstructs
`port = nums[4]*256 + nums[5]`.  The server's `handlePort` uses the same
`p1*256 + p2` reconstruction. -/

/-- The comma-separated numeric payload of a 227 (PASV) response, as the
server renders it for a dotted-decimal host `h1.h2.h3.h4` and port bytes
`p1`, `p2`. -/
def encodePasvPayload (h1 h2 h3 h4 p1 p2 : Nat) : List Char :=
  joinWith ',' [natRepr h1, natRepr h2, natRepr h3, natRepr h4,
    natRepr p1, natRepr p2]

/-- The client's parse of the text between the parentheses of a 227
response: split on commas, require exactly six parts, and `Atoi` each
(after `TrimSpace`), failing if any part fails to parse. -/
def decodePasvTuple (cs : List Char) : Option (List Int) :=
  let parts := splitOn ',' cs
  if parts.length = 6 then parts.mapM (fun p => goAtoi (trimSpace p))
  else none

/-- Server-side high port byte: `p1 := port / 256` (`handlePassive`). -/
def pasvPortHi (port : Nat) : Nat := port / 256

/-- Server-side low port byte: `p2 := port % 256` (`handlePassive`). -/
def pasvPortLo (port : Nat) : Nat := port % 256

/-- Port reconstruction `p1*256 + p2` (client `enterPassiveMode` and
server `handlePort`). -/
def portFromPair (p1 p2 : Int) : Int := p1 * 256 + p2

/-! ## Lexical path normalization (models `path/filepath` on Unix)

`filepath.Clean` (Unix) is specified by its documentation: collapse
multiple slashes, drop `.` components, eliminate each `..` together
with the preceding non-`..` component, drop `..` components at the root,
return `.` for an empty result, and keep the leading `/` of rooted
paths.  `filepath.Join` joins its non-empty arguments with `/` and
Cleans the result (empty if all arguments are empty). -/

/-- One step of the `..`-elimination stack (stack kept reversed). -/
def cleanStep (st : List (List Char)) (c : List Char) (rooted : Bool) :
    List (List Char) :=
  if c = ['.', '.'] then
    match st with
    | top :: rest => if top = ['.', '.'] then c :: st else rest
    | [] => if rooted then [] else [c]
  else c :: st

/-- Models Go `filepath.Clean` on Unix paths. -/
def goClean (path : List Char) : List Char :=
  if path = [] then ['.']
  else
    let rooted := path.head? = some '/'
    let comps := (splitOn '/' path).filter (fun c => !(c = [] || c = ['.']))
    let stack := comps.foldl (fun st c => cleanStep st c rooted) []
    let body := joinWith '/' stack.reverse
    if rooted then '/' :: body
    else if body = [] then ['.'] else body

/-- Models Go `filepath.Join` of two path elements. -/
def goJoin (a b : List Char) : List Char :=
  if a = [] && b = [] then []
  else goClean (if a = [] then b else if b = [] then a else a ++ '/' :: b)

/-- Resolution of a CWD/CDUP parameter against the current working
directory, translated from `handleChangeDir` (`cmd/client.go` lines
570–584): an absolute parameter is used as-is, a relative one is joined
to the working directory; the result is Cleaned and forced to start
with `/`. -/
def resolveCwd (workDir param : List Char) : List Char :=
  let newPath0 := if param.head? = some '/' then param
    else goJoin workDir param
  let newPath1 := goClean newPath0
  if newPath1.head? = some '/' then newPath1 else '/' :: newPath1

/-! ## Server session model (`cmd/client.go`, server part)

The server's per-connection state is `Session` (authentication flag,
virtual working directory, optional data-channel handle).  Connections
are identified by abstract `Nat` ids.  Socket and filesystem outcomes
are supplied by an `Env` oracle; each handler returns the new session
and an ordered trace of observable events.

The background goroutine that accepts the PASV data connection is
sequentialized: its outcome (`Env.pasvAccept`) is applied after the 227
response, before the next command.  (The source runs it as a detached
goroutine racing the command loop; that race is outside this model.) -/

/-- Observable actions of a server command handler, in order. -/
inductive Ev
  /-- `writeResponse(code, message)` on the control channel. -/
  | resp (code : Nat) (msg : List Char)
  /-- `writeMultiResponse(code, messages)` on the control channel. -/
  | multiResp (code : Nat) (msgs : List (List Char))
  /-- A data connection handle was closed. -/
  | closeData (c : Nat)
  /-- A data connection handle was established and stored in the
  session's data-channel slot. -/
  | openData (c : Nat)
  /-- Bytes were moved over the data channel (listing text or file
  contents; the content itself is out of scope per the spec). -/
  | xfer
deriving DecidableEq, Repr

/-- Server session state (`Session` in the source). -/
structure Session where
  authenticated : Bool
  workDir : List Char
  dataConn : Option Nat
deriving DecidableEq, Repr

/-- Server configuration relevant to command handling. -/
structure FTPServer where
  rootDir : List Char
deriving DecidableEq, Repr

/-- Oracle for the socket and filesystem outcomes one command can
observe.  Field names follow the call sites in the source. -/
structure Env where
  /-- `net.Listen("tcp", ":0")` outcome for PASV: the ephemeral port,
  or `none` on failure. -/
  pasvListen : Option Nat
  /-- `net.SplitHostPort` on the listener address (PASV). -/
  pasvSplitOk : Bool
  /-- The data connection delivered by the (sequentialized) PASV
  `listener.Accept()`, or `none` if the accept fails. -/
  pasvAccept : Option Nat
  /-- The dotted-decimal components of the control connection's local
  host address (`strings.Split(host, ".")`). -/
  localHostParts : List (List Char)
  /-- `net.Dial` outcome for PORT. -/
  portDial : Option Nat
  /-- `os.Stat(path)`: `none` on error, otherwise `some info.IsDir()`. -/
  stat : List Char → Option Bool
  /-- `os.Open(path)` success (RETR). -/
  openFile : List Char → Bool
  /-- `file.Stat()` after a successful open: `none` on error,
  otherwise the file size (RETR). -/
  fstatSize : List Char → Option Nat
  /-- Whether streaming the file to the data connection succeeds
  (RETR `WriteTo`). -/
  sendOk : Bool
  /-- `os.Create(path)` success (STOR). -/
  createFile : List Char → Bool
  /-- Whether receiving the upload succeeds (STOR `WriteTo`). -/
  recvOk : Bool
  /-- `os.ReadDir(path)` success (LIST). -/
  readDirOk : List Char → Bool

/-- The text of the 227 response (`handlePassive`): the first four
host components and the two port bytes, comma-separated in parens. -/
def pasvMsg (hostParts : List (List Char)) (p1 p2 : Nat) : List Char :=
  "Entering Passive Mode (".data ++
    joinWith ',' [hostParts.getD 0 [], hostParts.getD 1 [],
      hostParts.getD 2 [], hostParts.getD 3 [],
      natRepr p1, natRepr p2] ++ ")".data

/-- Closing of any previously stored data channel, as done at the top
of both `handlePassive` and `handlePort`. -/
def closeOldData (sess : Session) : Session × List Ev :=
  match sess.dataConn with
  | some c => ({ sess with dataConn := none }, [Ev.closeData c])
  | none => (sess, [])

/-- `handlePassive` (`cmd/client.go` lines 333–378), with the accept
goroutine sequentialized after the 227 response. -/
def handlePassive (env : Env) (sess : Session) : Session × List Ev :=
  let s0 := (closeOldData sess).1
  let e0 := (closeOldData sess).2
  match env.pasvListen with
  | none => (s0, e0 ++ [Ev.resp 425 "Cannot open data connection".data])
  | some port =>
    if env.pasvSplitOk = false then
      (s0, e0 ++ [Ev.resp 425 "Cannot open data connection".data])
    else
      let p1 := port / 256
      let p2 := port % 256
      let msg := pasvMsg env.localHostParts p1 p2
      match env.pasvAccept with
      | none => (s0, e0 ++ [Ev.resp 227 msg])
      | some c2 =>
          ({ s0 with dataConn := some c2 },
            e0 ++ [Ev.resp 227 msg, Ev.openData c2])

/-- `handlePort` (`cmd/client.go` lines 381–411).  The dial target is
derived from the parameter exactly as in the source (errors of the two
`Atoi` calls are discarded, leaving 0); the dial outcome itself comes
from the oracle. -/
def handlePort (env : Env) (sess : Session) (param : List Char) :
    Session × List Ev :=
  let s0 := (closeOldData sess).1
  let e0 := (closeOldData sess).2
  let parts := splitOn ',' param
  if parts.length ≠ 6 then
    (s0, e0 ++ [Ev.resp 501 "Invalid PORT command".data])
  else
    let p1 : Int := (goAtoi (parts.getD 4 [])).getD 0
    let p2 : Int := (goAtoi (parts.getD 5 [])).getD 0
    let _port : Int := p1 * 256 + p2
    match env.portDial with
    | none => (s0, e0 ++ [Ev.resp 425 "Cannot open data connection".data])
    | some c2 =>
        ({ s0 with dataConn := some c2 },
          e0 ++ [Ev.resp 200 "PORT command successful".data, Ev.openData c2])

/-- `handleList` (`cmd/client.go` lines 414–484).  The `defer` that
closes and clears the data channel is reflected by the trailing
`closeData` event and the cleared slot on every path past the nil
check. -/
def handleList (srv : FTPServer) (env : Env) (sess : Session)
    (param : List Char) : Session × List Ev :=
  match sess.dataConn with
  | none => (sess, [Ev.resp 425 "Use PORT or PASV first".data])
  | some c =>
    let sessDone := { sess with dataConn := none }
    let path := if param = [] || param = "-a".data || param = "-l".data
      then sess.workDir else param
    let fullPath := goJoin srv.rootDir (goClean path)
    match env.stat fullPath with
    | none =>
        (sessDone, [Ev.resp 550 "File not found".data, Ev.closeData c])
    | some isDir =>
        let opening := Ev.resp 150 "Here comes the directory listing".data
        if isDir then
          if env.readDirOk fullPath then
            (sessDone, [opening, Ev.xfer,
              Ev.resp 226 "Directory send OK".data, Ev.closeData c])
          else
            (sessDone, [opening,
              Ev.resp 550 "Error reading directory".data, Ev.closeData c])
        else
          (sessDone, [opening, Ev.xfer,
            Ev.resp 226 "Directory send OK".data, Ev.closeData c])

/-- `handleRetrieve` (`cmd/client.go` lines 487–529). -/
def handleRetrieve (srv : FTPServer) (env : Env) (sess : Session)
    (param : List Char) : Session × List Ev :=
  match sess.dataConn with
  | none => (sess, [Ev.resp 425 "Use PORT or PASV first".data])
  | some c =>
    let sessDone := { sess with dataConn := none }
    let fullPath := goJoin srv.rootDir (goClean param)
    if env.openFile fullPath = false then
      (sessDone, [Ev.resp 550 "File not found".data, Ev.closeData c])
    else
      match env.fstatSize fullPath with
      | none =>
          (sessDone,
            [Ev.resp 550 "Error accessing file".data, Ev.closeData c])
      | some size =>
          let opening := Ev.resp 150
            ("Opening data connection for ".data ++ param ++
              " (".data ++ natRepr size ++ " bytes)".data)
          if env.sendOk then
            (sessDone, [opening, Ev.xfer,
              Ev.resp 226 "Transfer complete".data, Ev.closeData c])
          else
            (sessDone, [opening, Ev.closeData c])

/-- `handleStore` (`cmd/client.go` lines 532–567). -/
def handleStore (srv : FTPServer) (env : Env) (sess : Session)
    (param : List Char) : Session × List Ev :=
  match sess.dataConn with
  | none => (sess, [Ev.resp 425 "Use PORT or PASV first".data])
  | some c =>
    let sessDone := { sess with dataConn := none }
    let fullPath := goJoin srv.rootDir (goClean param)
    if env.createFile fullPath = false then
      (sessDone, [Ev.resp 550 "Cannot create file".data, Ev.closeData c])
    else
      let opening := Ev.resp 150 "Ok to send data".data
      if env.recvOk then
        (sessDone, [opening, Ev.xfer,
          Ev.resp 226 "Transfer complete".data, Ev.closeData c])
      else
        (sessDone, [opening, Ev.closeData c])

/-- `handleChangeDir` (`cmd/client.go` lines 570–599). -/
def handleChangeDir (srv : FTPServer) (env : Env) (sess : Session)
    (param : List Char) : Session × List Ev :=
  let newPath := resolveCwd sess.workDir param
  let fullPath := goJoin srv.rootDir newPath
  match env.stat fullPath with
  | some true =>
      ({ sess with workDir := newPath },
        [Ev.resp 250 "Directory successfully changed".data])
  | _ => (sess, [Ev.resp 550 "Directory not found".data])

/-- The verbs distinguished by the `switch` in `handleCommand`. -/
inductive Verb
  | user | pass | syst | feat | pwd | vtype | pasv | vport
  | list | retr | stor | cwd | cdup | quit
  /-- The `default` arm of the switch. -/
  | unknown
deriving DecidableEq, Repr

/-- Verb recognition: the case selection of the `switch command` in
`handleCommand` (`cmd/client.go` lines 245–303). -/
def parseVerb (command : String) : Verb :=
  if command = "USER" then .user
  else if command = "PASS" then .pass
  else if command = "SYST" then .syst
  else if command = "FEAT" then .feat
  else if command = "PWD" then .pwd
  else if command = "TYPE" then .vtype
  else if command = "PASV" then .pasv
  else if command = "PORT" then .vport
  else if command = "LIST" then .list
  else if command = "RETR" then .retr
  else if command = "STOR" then .stor
  else if command = "CWD" then .cwd
  else if command = "CDUP" then .cdup
  else if command = "QUIT" then .quit
  else .unknown

/-- `handleCommand` (`cmd/client.go` lines 242–308): dispatches one
already-parsed command (the command loop has uppercased the verb and
split off the parameter).  Returns whether the command loop continues,
the new session, and the event trace.  The Go `switch` is split into
`parseVerb` (case selection) and this action table; together they are
the switch statement unchanged. -/
def handleCommand (srv : FTPServer) (env : Env) (sess : Session)
    (command : String) (param : List Char) : Bool × Session × List Ev :=
  match parseVerb command with
  | .user =>
      (true, sess, [Ev.resp 331 "User name okay, need password".data])
  | .pass =>
      (true, { sess with authenticated := true },
        [Ev.resp 230 "User logged in, proceed".data])
  | .syst => (true, sess, [Ev.resp 215 "UNIX Type: L8".data])
  | .feat =>
      (true, sess,
        [Ev.multiResp 211 ["Features:".data, " UTF8".data, "End".data]])
  | .pwd =>
      (true, sess, [Ev.resp 257
        ('"' :: sess.workDir ++ "\" is the current directory".data)])
  | .vtype => (true, sess, [Ev.resp 200 ("Type set to ".data ++ param)])
  | .pasv =>
      (true, (handlePassive env sess).1, (handlePassive env sess).2)
  | .vport =>
      (true, (handlePort env sess param).1, (handlePort env sess param).2)
  | .list =>
      if sess.authenticated = false then
        (true, sess, [Ev.resp 530 "Not logged in".data])
      else
        (true, (handleList srv env sess param).1,
          (handleList srv env sess param).2)
  | .retr =>
      if sess.authenticated = false then
        (true, sess, [Ev.resp 530 "Not logged in".data])
      else
        (true, (handleRetrieve srv env sess param).1,
          (handleRetrieve srv env sess param).2)
  | .stor =>
      if sess.authenticated = false then
        (true, sess, [Ev.resp 530 "Not logged in".data])
      else
        (true, (handleStore srv env sess param).1,
          (handleStore srv env sess param).2)
  | .cwd =>
      if sess.authenticated = false then
        (true, sess, [Ev.resp 530 "Not logged in".data])
      else
        (true, (handleChangeDir srv env sess param).1,
          (handleChangeDir srv env sess param).2)
  | .cdup =>
      if sess.authenticated = false then
        (true, sess, [Ev.resp 530 "Not logged in".data])
      else
        (true, (handleChangeDir srv env sess "..".data).1,
          (handleChangeDir srv env sess "..".data).2)
  | .quit => (false, sess, [Ev.resp 221 "Goodbye".data])
  | .unknown =>
      (true, sess, [Ev.resp 502 "Command not implemented".data])

/-- The command loop of `handleClient` (lines 212–236) over a list of
already-parsed commands, each with its I/O oracle: processes commands
until one signals termination. -/
def runCmds (srv : FTPServer) : List (String × List Char × Env) →
    Session → Session
  | [], sess => sess
  | (c, p, e) :: rest, sess =>
      let r := handleCommand srv e sess c p
      if r.1 then runCmds srv rest r.2.1 else r.2.1

/-- The set of data-connection handles still live after an event trace,
starting from a given live set: `closeData` removes, `openData` adds. -/
def liveAfter (live : List Nat) : List Ev → List Nat
  | [] => live
  | Ev.closeData c :: evs => liveAfter (live.erase c) evs
  | Ev.openData c :: evs => liveAfter (live ++ [c]) evs
  | _ :: evs => liveAfter live evs

/-- The five commands guarded by the authentication check in
`handleCommand`. -/
def authCmds : List String := ["LIST", "RETR", "STOR", "CWD", "CDUP"]

/-! ## Client response decoder (`readResponse`, client lines 288–327)

The control input is modelled as the list of `'\n'`-terminated lines the
buffered reader would deliver; running out of lines models a read error
(`bufio.ReadString` returning an error).  Each line still carries its
terminator, as in the source. -/

/-- The continuation loop of `readResponse`: keep consuming lines until
one whose first three bytes equal the opening code's `Itoa` rendering
and whose fourth byte is a space; every consumed line's trimmed text is
appended to the message after a newline. -/
def readMulti (codeStr : List Char) (msg : List Char) :
    List (List Char) → Option (List Char × List (List Char))
  | [] => none
  | l :: ls =>
    if 4 ≤ l.length ∧ l.take 3 = codeStr ∧ l[3]? = some ' ' then
      some (msg ++ '\n' :: trimSpace (l.drop 4), ls)
    else readMulti codeStr (msg ++ '\n' :: trimSpace l) ls

/-- `readResponse`: reads one logical coded response.  Returns the code,
the accumulated message, and the unconsumed input; `none` models the
error returns (read failure, bad layout, or bad code). -/
def readResponse (input : List (List Char)) :
    Option (Int × List Char × List (List Char)) :=
  match input with
  | [] => none
  | l :: ls =>
    if 4 ≤ l.length ∧ (l[3]? = some ' ' ∨ l[3]? = some '-') then
      match goAtoi (l.take 3) with
      | none => none
      | some code =>
        if l[3]? = some '-' then
          (readMulti (goItoa code) (trimSpace (l.drop 4)) ls).map
            (fun r => (code, r.1, r.2))
        else some (code, trimSpace (l.drop 4), ls)
    else none

/-- The layout/code condition under which `readResponse` accepts its
first line: at least four bytes, fourth byte space or hyphen, and the
first three bytes parse under `strconv.Atoi`. -/
abbrev respLineAccepted (l : List Char) : Prop :=
  4 ≤ l.length ∧ (l[3]? = some ' ' ∨ l[3]? = some '-') ∧
    (goAtoi (l.take 3)).isSome

/-- The closing condition of the continuation loop. -/
abbrev closesMulti (codeStr l : List Char) : Prop :=
  4 ≤ l.length ∧ l.take 3 = codeStr ∧ l[3]? = some ' ' 

/-! ## Client transfer completion (`Get` lines 170–184, `Put` 253–267)

After the byte copy, both `Get` and `Put` close and clear the data
connection, read exactly one more control response, and return an error
unless its code is 226 or 250. -/

/-- Why the post-copy epilogue of `Get`/`Put` returns an error. -/
inductive TransferErr
  /-- `readResponse` itself failed; its error is propagated. -/
  | readFailed
  /-- `fmt.Errorf("unexpected response after transfer: %d %s", ...)`. -/
  | unexpectedCode (code : Int) (msg : List Char)
deriving DecidableEq, Repr

/-- The client's data-channel slot. -/
structure ClientConn where
  dataConn : Option Nat
deriving DecidableEq, Repr

/-- The completion check shared verbatim by `Get` and `Put`: read one
response; any code other than 226 or 250 is an error return. On success
the unconsumed control input is returned. -/
def transferEpilogue (input : List (List Char)) :
    Except TransferErr (List (List Char)) :=
  match readResponse input with
  | none => Except.error TransferErr.readFailed
  | some (code, msg, rest) =>
      if code ≠ 226 ∧ code ≠ 250 then
        Except.error (TransferErr.unexpectedCode code msg)
      else Except.ok rest

/-- The tail of `Get`/`Put` from the end of `io.Copy`: the data channel
is closed and cleared unconditionally, then the completion response is
checked. -/
def clientTransferTail (_st : ClientConn) (input : List (List Char)) :
    ClientConn × Except TransferErr (List (List Char)) :=
  (⟨none⟩, transferEpilogue input)

/-! ## Connection-string parser (`shell.go` lines 445–486)

`parseConnectionString` normalizes its input to an `ftp://` URL (adding
default credentials when no `@` is present) and hands it to
`net/url.Parse`.  The `net/url` fragment used is modelled from Go's
behaviour: the authority is the text up to the first `/`, userinfo is
split off at the **last** `@` and must consist of valid userinfo
characters, the userinfo splits at the **first** `:` into username and
password and each of those is percent-unescaped (a malformed escape is
a parse error), and `Hostname()`/`Port()` split the host at the last
`:` provided only digits follow (a non-digit port is a parse error).
Percent-escapes in the host itself are outside the modelled fragment;
the theorem's host hypotheses exclude `%` from hosts. -/

/-- Split at the first occurrence of `sep`; `none` if absent. -/
def breakAtFirst (sep : Char) : List Char → Option (List Char × List Char)
  | [] => none
  | c :: cs =>
    if c = sep then some ([], cs)
    else (breakAtFirst sep cs).map (fun r => (c :: r.1, r.2))

/-- Split at the last occurrence of `sep`; `none` if absent. -/
def breakAtLast (sep : Char) (l : List Char) :
    Option (List Char × List Char) :=
  (breakAtFirst sep l.reverse).map (fun r => (r.2.reverse, r.1.reverse))

/-- Characters Go's `net/url` accepts inside the userinfo component. -/
def validUserinfoChar (c : Char) : Bool :=
  c.isAlpha || c.isDigit ||
    ['-', '.', '_', ':', '~', '!', '$', '&', '\'', '(', ')', '*', '+',
      ',', ';', '=', '%', '@'].contains c

/-- Strips one pair of square brackets around a host (IPv6 literals). -/
def stripBrackets (h : List Char) : List Char :=
  if h.head? = some '[' ∧ h.getLast? = some ']' then (h.drop 1).dropLast
  else h

/-- Go's split of `host[:port]`: the part after the last `:` is the
port when it is all digits (possibly empty); a non-digit port is a
`url.Parse` error (`none`). -/
def parseHostPort (hostport : List Char) :
    Option (List Char × List Char) :=
  match breakAtLast ':' hostport with
  | some r =>
      if r.2.all isDigitCh then some (stripBrackets r.1, r.2) else none
  | none => some (stripBrackets hostport, [])

/-- The parsed components of an `ftp://` URL. -/
structure GoURL where
  /-- Username and optional password, if an `@` was present. -/
  userinfo : Option (List Char × Option (List Char))
  host : List Char
  /-- The port digits, empty when no port was given. -/
  portDigits : List Char
  path : List Char
deriving DecidableEq, Repr

/-- The value of a hexadecimal digit character (Go `unhex`). -/
def hexVal (c : Char) : Option Nat :=
  if '0' ≤ c && c ≤ '9' then some (c.toNat - 48)
  else if 'a' ≤ c && c ≤ 'f' then some (c.toNat - 87)
  else if 'A' ≤ c && c ≤ 'F' then some (c.toNat - 55)
  else none

/-- Go `net/url`'s `unescape(s, encodeUserPassword)`: every `%` must
be followed by two hexadecimal digits and is decoded to that byte; a
malformed escape is an `EscapeError` (`none`), which `url.Parse`
propagates. -/
def unescapeUserinfo : List Char → Option (List Char)
  | [] => some []
  | c :: rest =>
    if c = '%' then
      match rest with
      | h1 :: h2 :: rest2 =>
          match hexVal h1, hexVal h2 with
          | some a, some b =>
              (unescapeUserinfo rest2).map
                (fun t => Char.ofNat (a * 16 + b) :: t)
          | _, _ => none
      | _ => none
    else (unescapeUserinfo rest).map (fun t => c :: t)

/-- The authority part of `net/url.Parse` (Go `parseAuthority`): parse
host and port from the text after the last `@`; then, when a userinfo
part is present, validate its characters, split it at the first `:`
into username and password, and percent-unescape each of them — a
malformed percent-escape makes the whole parse fail. -/
def parseAuthority (authority : List Char) :
    Option (Option (List Char × Option (List Char))
      × List Char × List Char) :=
  match breakAtLast '@' authority with
  | none =>
      match parseHostPort authority with
      | none => none
      | some hp => some (none, hp.1, hp.2)
  | some r =>
      match parseHostPort r.2 with
      | none => none
      | some hp =>
          if r.1.all validUserinfoChar = false then none
          else
            match breakAtFirst ':' r.1 with
            | none =>
                match unescapeUserinfo r.1 with
                | none => none
                | some un => some (some (un, none), hp.1, hp.2)
            | some cr =>
                match unescapeUserinfo cr.1, unescapeUserinfo cr.2 with
                | some un, some pw =>
                    some (some (un, some pw), hp.1, hp.2)
                | _, _ => none

/-- The fragment of `net/url.Parse` exercised by
`parseConnectionString` (plain `ftp://` URLs): the authority is the
text up to the first `/`, the rest is the path. -/
def goURLParseFtp (s : List Char) : Option GoURL :=
  if s.take 6 = "ftp://".data then
    match breakAtFirst '/' (s.drop 6) with
    | some r =>
        match parseAuthority r.1 with
        | none => none
        | some u => some ⟨u.1, u.2.1, u.2.2, '/' :: r.2⟩
    | none =>
        match parseAuthority (s.drop 6) with
        | none => none
        | some u => some ⟨u.1, u.2.1, u.2.2, []⟩
  else none

/-- The input normalization of `parseConnectionString` (`shell.go`
lines 451–460): inputs without the `ftp://` scheme get it prepended,
and inputs without an `@` additionally get the default
`anonymous:guest@` credentials spliced in. -/
def normalizeConnStr (connStr : List Char) : List Char :=
  if connStr.take 6 = "ftp://".data then connStr
  else if '@' ∈ connStr then "ftp://".data ++ connStr
  else "ftp://".data ++ "anonymous".data ++ ':' :: "guest@".data
    ++ '@' :: connStr

/-- The port selection of `parseConnectionString` (lines 471–476): a
non-empty port string that `Atoi` accepts overrides the default 21. -/
def portVal (d : List Char) : Int :=
  if d ≠ [] then
    match goAtoi d with
    | some p => p
    | none => 21
  else 21

/-- The credential selection of `parseConnectionString` (lines
478–483): URL userinfo overrides the defaults
(`anonymous` / `guest@`). -/
def credVal (ui : Option (List Char × Option (List Char))) :
    List Char × List Char :=
  match ui with
  | none => ("anonymous".data, "guest@".data)
  | some cred =>
      (cred.1, match cred.2 with
        | some p => p
        | none => "guest@".data)

/-- `parseConnectionString` (`shell.go` lines 445–486): yields
`(host, port, user, password)` with defaults `21`, `"anonymous"`,
`"guest@"` for omitted components.  On a `url.Parse` error the host
is the (already normalized) connection string, as in the source. -/
def parseConnectionString (connStr : List Char) :
    List Char × Int × List Char × List Char :=
  match goURLParseFtp (normalizeConnStr connStr) with
  | none => (normalizeConnStr connStr, 21, "anonymous".data,
      "guest@".data)
  | some u =>
      (u.host, portVal u.portDigits, (credVal u.userinfo).1,
        (credVal u.userinfo).2)

/-- Characters this development assumes in host names (dotted-decimal
or DNS labels): letters, digits, dots, hyphens. -/
def isHostChar (c : Char) : Bool :=
  c.isAlpha || c.isDigit || c = '.' || c = '-'

/-! ## Supporting lemmas -/

theorem charToDigit_digitChar {d : Nat} (h : d < 10) :
    charToDigit (digitChar d) = d := by
  interval_cases d <;> decide

theorem isDigitCh_digitChar {d : Nat} (h : d < 10) :
    isDigitCh (digitChar d) = true := by
  interval_cases d <;> decide

theorem mem_natRepr_isDigit {n : Nat} {c : Char} (h : c ∈ natRepr n) :
    isDigitCh c = true := by
  unfold natRepr at h
  by_cases h0 : n = 0
  · simp [h0] at h; subst h; decide
  · simp [h0, List.mem_reverse, List.mem_map] at h
    obtain ⟨d, hd, rfl⟩ := h
    exact isDigitCh_digitChar (Nat.digits_lt_base (by norm_num) hd)

theorem natRepr_ne_nil (n : Nat) : natRepr n ≠ [] := by
  unfold natRepr
  by_cases h0 : n = 0
  · simp [h0]
  · simp [h0, Nat.digits_ne_nil_iff_ne_zero]

theorem foldl_digits_reverse (ds : List Nat) (a : Nat)
    (h : ∀ d ∈ ds, d < 10) :
    ((ds.map digitChar).reverse).foldl (fun x c => x * 10 + charToDigit c) a
      = a * 10 ^ ds.length + Nat.ofDigits 10 ds := by
  induction ds generalizing a with
  | nil => simp
  | cons d ds ih =>
      have hd : d < 10 := h d (by simp)
      have hds : ∀ x ∈ ds, x < 10 := fun x hx => h x (by simp [hx])
      rw [List.map_cons, List.reverse_cons, List.foldl_append]
      simp only [List.foldl_cons, List.foldl_nil]
      rw [ih a hds, Nat.ofDigits_cons, charToDigit_digitChar hd,
        List.length_cons]
      ring

theorem parseDigits_natRepr (n : Nat) : parseDigits (natRepr n) = some n := by
  unfold parseDigits
  have hne := natRepr_ne_nil n
  have hall : (natRepr n).all isDigitCh = true := by
    rw [List.all_eq_true]; intro c hc; exact mem_natRepr_isDigit hc
  rw [if_neg hne, if_pos hall]
  by_cases h0 : n = 0
  · simp [natRepr, h0]; decide
  · have hlt : ∀ d ∈ Nat.digits 10 n, d < 10 :=
      fun d hd => Nat.digits_lt_base (by norm_num) hd
    simp only [natRepr, h0, if_false]
    rw [foldl_digits_reverse _ 0 hlt]
    simp [Nat.ofDigits_digits]

theorem isDigitCh_ne_sign {c : Char} (h : isDigitCh c = true) :
    c ≠ '+' ∧ c ≠ '-' := by
  constructor <;> rintro rfl <;> simp [isDigitCh] at h

theorem goAtoi_natRepr (n : Nat) : goAtoi (natRepr n) = some (n : Int) := by
  obtain ⟨c, rest, hcr⟩ : ∃ c rest, natRepr n = c :: rest := by
    cases h : natRepr n with
    | nil => exact absurd h (natRepr_ne_nil n)
    | cons c rest => exact ⟨c, rest, rfl⟩
  have hdig : isDigitCh c = true :=
    mem_natRepr_isDigit (by rw [hcr]; simp)
  obtain ⟨hplus, hminus⟩ := isDigitCh_ne_sign hdig
  rw [hcr]
  simp only [goAtoi]
  rw [if_neg hplus, if_neg hminus, ← hcr, parseDigits_natRepr]
  rfl

theorem splitOn_no_sep {sep : Char} {p : List Char} (h : sep ∉ p) :
    splitOn sep p = [p] := by
  induction p with
  | nil => rfl
  | cons c cs ih =>
      have hc : ¬c = sep := fun hcs => h (by simp [hcs])
      have hcs : sep ∉ cs := fun hm => h (by simp [hm])
      rw [splitOn, if_neg hc, ih hcs]

theorem splitOn_append_sep {sep : Char} {p rest : List Char} (h : sep ∉ p) :
    splitOn sep (p ++ sep :: rest) = p :: splitOn sep rest := by
  induction p with
  | nil => simp [splitOn]
  | cons c cs ih =>
      have hc : ¬c = sep := fun hcs => h (by simp [hcs])
      have hcs : sep ∉ cs := fun hm => h (by simp [hm])
      rw [List.cons_append, splitOn, if_neg hc, ih hcs]

theorem splitOn_joinWith {sep : Char} {l : List (List Char)}
    (hne : l ≠ []) (h : ∀ p ∈ l, sep ∉ p) :
    splitOn sep (joinWith sep l) = l := by
  induction l with
  | nil => exact absurd rfl hne
  | cons p ps ih =>
      cases ps with
      | nil => exact splitOn_no_sep (h p (by simp))
      | cons q qs =>
          rw [joinWith, splitOn_append_sep (h p (by simp))]
          rw [ih (by simp) (fun r hr => h r (by simp [hr]))]

theorem dropWhile_no_space {cs : List Char}
    (h : ∀ c ∈ cs, isGoSpace c = false) : cs.dropWhile isGoSpace = cs := by
  cases cs with
  | nil => rfl
  | cons c cs => simp [List.dropWhile, h c (by simp)]

theorem trimSpace_no_space {cs : List Char}
    (h : ∀ c ∈ cs, isGoSpace c = false) : trimSpace cs = cs := by
  unfold trimSpace
  rw [dropWhile_no_space h,
    dropWhile_no_space (fun c hc => h c (List.mem_reverse.mp hc)),
    List.reverse_reverse]

theorem isDigitCh_not_space {c : Char} (h : isDigitCh c = true) :
    isGoSpace c = false := by
  simp only [isDigitCh, Bool.and_eq_true, decide_eq_true_eq] at h
  simp only [isGoSpace, Bool.or_eq_false_iff, decide_eq_false_iff_not]
  refine ⟨⟨⟨⟨⟨?_, ?_⟩, ?_⟩, ?_⟩, ?_⟩, ?_⟩ <;> rintro rfl <;>
    revert h <;> decide

theorem isDigitCh_ne_comma {c : Char} (h : isDigitCh c = true) : c ≠ ',' := by
  rintro rfl; simp [isDigitCh] at h

theorem goAtoi_trim_natRepr (n : Nat) :
    goAtoi (trimSpace (natRepr n)) = some (n : Int) := by
  rw [trimSpace_no_space
    (fun c hc => isDigitCh_not_space (mem_natRepr_isDigit hc)),
    goAtoi_natRepr]

theorem decode_encode_pasv (h1 h2 h3 h4 p1 p2 : Nat) :
    decodePasvTuple (encodePasvPayload h1 h2 h3 h4 p1 p2)
      = some [(h1 : Int), h2, h3, h4, p1, p2] := by
  have hsplit : splitOn ',' (encodePasvPayload h1 h2 h3 h4 p1 p2)
      = [natRepr h1, natRepr h2, natRepr h3, natRepr h4,
         natRepr p1, natRepr p2] := by
    refine splitOn_joinWith (by simp) ?_
    intro p hp hc
    have : isDigitCh ',' = true := by
      simp only [List.mem_cons, List.not_mem_nil, or_false] at hp
      rcases hp with rfl | rfl | rfl | rfl | rfl | rfl <;>
        exact mem_natRepr_isDigit hc
    simp [isDigitCh] at this
  rw [decodePasvTuple, hsplit]
  simp only [List.length_cons, List.length_nil, if_pos rfl]
  simp [List.mapM, List.mapM.loop, goAtoi_trim_natRepr]

theorem parseVerb_USER : parseVerb "USER" = Verb.user := by
  unfold parseVerb; simp only [String.reduceEq, reduceIte]

theorem parseVerb_PASS : parseVerb "PASS" = Verb.pass := by
  unfold parseVerb; simp only [String.reduceEq, reduceIte]

theorem parseVerb_LIST : parseVerb "LIST" = Verb.list := by
  unfold parseVerb; simp only [String.reduceEq, reduceIte]

theorem parseVerb_RETR : parseVerb "RETR" = Verb.retr := by
  unfold parseVerb; simp only [String.reduceEq, reduceIte]

theorem parseVerb_STOR : parseVerb "STOR" = Verb.stor := by
  unfold parseVerb; simp only [String.reduceEq, reduceIte]

theorem parseVerb_CWD : parseVerb "CWD" = Verb.cwd := by
  unfold parseVerb; simp only [String.reduceEq, reduceIte]

theorem parseVerb_CDUP : parseVerb "CDUP" = Verb.cdup := by
  unfold parseVerb; simp only [String.reduceEq, reduceIte]

theorem parseVerb_QUIT : parseVerb "QUIT" = Verb.quit := by
  unfold parseVerb; simp only [String.reduceEq, reduceIte]

theorem parseVerb_quit_inv {command : String}
    (h : parseVerb command = Verb.quit) : command = "QUIT" := by
  unfold parseVerb at h
  by_cases h1 : command = "USER"
  case pos => rw [if_pos h1] at h; exact Verb.noConfusion h
  rw [if_neg h1] at h
  by_cases h2 : command = "PASS"
  case pos => rw [if_pos h2] at h; exact Verb.noConfusion h
  rw [if_neg h2] at h
  by_cases h3 : command = "SYST"
  case pos => rw [if_pos h3] at h; exact Verb.noConfusion h
  rw [if_neg h3] at h
  by_cases h4 : command = "FEAT"
  case pos => rw [if_pos h4] at h; exact Verb.noConfusion h
  rw [if_neg h4] at h
  by_cases h5 : command = "PWD"
  case pos => rw [if_pos h5] at h; exact Verb.noConfusion h
  rw [if_neg h5] at h
  by_cases h6 : command = "TYPE"
  case pos => rw [if_pos h6] at h; exact Verb.noConfusion h
  rw [if_neg h6] at h
  by_cases h7 : command = "PASV"
  case pos => rw [if_pos h7] at h; exact Verb.noConfusion h
  rw [if_neg h7] at h
  by_cases h8 : command = "PORT"
  case pos => rw [if_pos h8] at h; exact Verb.noConfusion h
  rw [if_neg h8] at h
  by_cases h9 : command = "LIST"
  case pos => rw [if_pos h9] at h; exact Verb.noConfusion h
  rw [if_neg h9] at h
  by_cases h10 : command = "RETR"
  case pos => rw [if_pos h10] at h; exact Verb.noConfusion h
  rw [if_neg h10] at h
  by_cases h11 : command = "STOR"
  case pos => rw [if_pos h11] at h; exact Verb.noConfusion h
  rw [if_neg h11] at h
  by_cases h12 : command = "CWD"
  case pos => rw [if_pos h12] at h; exact Verb.noConfusion h
  rw [if_neg h12] at h
  by_cases h13 : command = "CDUP"
  case pos => rw [if_pos h13] at h; exact Verb.noConfusion h
  rw [if_neg h13] at h
  by_cases h14 : command = "QUIT"
  case pos => exact h14
  rw [if_neg h14] at h
  exact Verb.noConfusion h

theorem handlePassive_auth (env : Env) (sess : Session) :
    (handlePassive env sess).1.authenticated = sess.authenticated := by
  unfold handlePassive closeOldData
  cases sess.dataConn <;> cases env.pasvListen <;>
    cases env.pasvSplitOk <;> cases env.pasvAccept <;> simp

theorem handlePort_auth (env : Env) (sess : Session) (param : List Char) :
    (handlePort env sess param).1.authenticated = sess.authenticated := by
  unfold handlePort closeOldData
  cases sess.dataConn <;> cases env.portDial <;>
    by_cases h6 : (splitOn ',' param).length ≠ 6 <;> simp [h6]

theorem handleList_auth (srv : FTPServer) (env : Env) (sess : Session)
    (param : List Char) :
    (handleList srv env sess param).1.authenticated = sess.authenticated := by
  unfold handleList
  dsimp only
  repeat' split
  all_goals rfl

theorem handleRetrieve_auth (srv : FTPServer) (env : Env) (sess : Session)
    (param : List Char) :
    (handleRetrieve srv env sess param).1.authenticated
      = sess.authenticated := by
  unfold handleRetrieve
  dsimp only
  repeat' split
  all_goals rfl

theorem handleStore_auth (srv : FTPServer) (env : Env) (sess : Session)
    (param : List Char) :
    (handleStore srv env sess param).1.authenticated
      = sess.authenticated := by
  unfold handleStore
  dsimp only
  repeat' split
  all_goals rfl

theorem handleChangeDir_auth (srv : FTPServer) (env : Env) (sess : Session)
    (param : List Char) :
    (handleChangeDir srv env sess param).1.authenticated
      = sess.authenticated := by
  unfold handleChangeDir
  dsimp only
  repeat' split
  all_goals rfl

theorem handleCommand_auth_mono (srv : FTPServer) (env : Env)
    (sess : Session) (command : String) (param : List Char)
    (h : sess.authenticated = true) :
    (handleCommand srv env sess command param).2.1.authenticated = true := by
  unfold handleCommand
  cases parseVerb command <;>
    simp [h, handlePassive_auth, handlePort_auth, handleList_auth,
      handleRetrieve_auth, handleStore_auth, handleChangeDir_auth]

theorem runCmds_auth_mono (srv : FTPServer)
    (cmds : List (String × List Char × Env)) :
    ∀ sess : Session, sess.authenticated = true →
      (runCmds srv cmds sess).authenticated = true := by
  induction cmds with
  | nil => intro sess h; exact h
  | cons hd tl ih =>
      intro sess h
      obtain ⟨c, p, e⟩ := hd
      unfold runCmds
      by_cases hc : (handleCommand srv e sess c p).1 = true
      · simp only [hc, if_true]
        exact ih _ (handleCommand_auth_mono _ _ _ _ _ h)
      · simp only [Bool.not_eq_true] at hc
        simp only [hc, Bool.false_eq_true, if_false]
        exact handleCommand_auth_mono _ _ _ _ _ h

theorem handleList_no530 (srv : FTPServer) (env : Env) (sess : Session)
    (param : List Char) (m : List Char) :
    Ev.resp 530 m ∉ (handleList srv env sess param).2 := by
  unfold handleList
  dsimp only
  repeat' split
  all_goals simp

theorem handleRetrieve_no530 (srv : FTPServer) (env : Env) (sess : Session)
    (param : List Char) (m : List Char) :
    Ev.resp 530 m ∉ (handleRetrieve srv env sess param).2 := by
  unfold handleRetrieve
  dsimp only
  repeat' split
  all_goals simp

theorem handleStore_no530 (srv : FTPServer) (env : Env) (sess : Session)
    (param : List Char) (m : List Char) :
    Ev.resp 530 m ∉ (handleStore srv env sess param).2 := by
  unfold handleStore
  dsimp only
  repeat' split
  all_goals simp

theorem handleChangeDir_no530 (srv : FTPServer) (env : Env) (sess : Session)
    (param : List Char) (m : List Char) :
    Ev.resp 530 m ∉ (handleChangeDir srv env sess param).2 := by
  unfold handleChangeDir
  dsimp only
  repeat' split
  all_goals simp

/-! ## Witness fixtures -/

/-- A concrete I/O oracle for witness instantiations: every socket and
filesystem operation succeeds. -/
def env0 : Env where
  pasvListen := some 2023
  pasvSplitOk := true
  pasvAccept := some 1
  localHostParts := ["127".data, "0".data, "0".data, "1".data]
  portDial := some 2
  stat := fun _ => some true
  openFile := fun _ => true
  fstatSize := fun _ => some 5
  sendOk := true
  createFile := fun _ => true
  recvOk := true
  readDirOk := fun _ => true

/-- A freshly accepted session (`handleClient` lines 185–191). -/
def sess0 : Session := ⟨false, "/".data, none⟩

/-- A concrete server configuration. -/
def srv0 : FTPServer := ⟨"/srv".data⟩

/-! ## Claim theorems -/

/-- C1: for every command in the authenticated-only set
{LIST, RETR, STOR, CWD, CDUP}, an unauthenticated session gets response
530 "Not logged in", the session (flag, working directory, data-channel
slot) is returned unchanged, and the loop continues (`true`); an
authenticated session is never answered with a 530 response for these
commands; PASS always sets the authenticated flag, and once set it
survives any further command sequence, so after any PASS these commands
are no longer rejected for authentication. -/
theorem auth_gate_rejects_until_pass (srv : FTPServer) (env : Env)
    (sess : Session) (cmd : String) (param : List Char)
    (hc : cmd ∈ authCmds) :
    (sess.authenticated = false →
      handleCommand srv env sess cmd param
        = (true, sess, [Ev.resp 530 "Not logged in".data])) ∧
    (sess.authenticated = true →
      ∀ m, Ev.resp 530 m ∉ (handleCommand srv env sess cmd param).2.2) ∧
    (∀ p2, (handleCommand srv env sess "PASS" p2).2.1.authenticated
      = true) ∧
    (∀ cmds, sess.authenticated = true →
      (runCmds srv cmds sess).authenticated = true) := by
  have hpass : ∀ p2 : List Char,
      (handleCommand srv env sess "PASS" p2).2.1.authenticated = true := by
    intro p2
    unfold handleCommand
    rw [parseVerb_PASS]
  have hrun : ∀ cmds, sess.authenticated = true →
      (runCmds srv cmds sess).authenticated = true :=
    fun cmds h => runCmds_auth_mono srv cmds sess h
  simp only [authCmds, List.mem_cons, List.not_mem_nil, or_false] at hc
  rcases hc with rfl | rfl | rfl | rfl | rfl
  · exact ⟨fun h => by unfold handleCommand; rw [parseVerb_LIST]; simp [h],
      fun h m => by
        unfold handleCommand; rw [parseVerb_LIST]; simp [h]
        exact handleList_no530 srv env sess param m, hpass, hrun⟩
  · exact ⟨fun h => by unfold handleCommand; rw [parseVerb_RETR]; simp [h],
      fun h m => by
        unfold handleCommand; rw [parseVerb_RETR]; simp [h]
        exact handleRetrieve_no530 srv env sess param m, hpass, hrun⟩
  · exact ⟨fun h => by unfold handleCommand; rw [parseVerb_STOR]; simp [h],
      fun h m => by
        unfold handleCommand; rw [parseVerb_STOR]; simp [h]
        exact handleStore_no530 srv env sess param m, hpass, hrun⟩
  · exact ⟨fun h => by unfold handleCommand; rw [parseVerb_CWD]; simp [h],
      fun h m => by
        unfold handleCommand; rw [parseVerb_CWD]; simp [h]
        exact handleChangeDir_no530 srv env sess param m, hpass, hrun⟩
  · exact ⟨fun h => by unfold handleCommand; rw [parseVerb_CDUP]; simp [h],
      fun h m => by
        unfold handleCommand; rw [parseVerb_CDUP]; simp [h]
        exact handleChangeDir_no530 srv env sess "..".data m, hpass, hrun⟩

/-- Witness for C1: a fresh (unauthenticated) session issuing LIST is
answered 530 and left unchanged, with the loop continuing. -/
theorem auth_gate_rejects_until_pass_witness :
    handleCommand srv0 env0 sess0 "LIST" []
      = (true, sess0, [Ev.resp 530 "Not logged in".data]) :=
  (auth_gate_rejects_until_pass srv0 env0 sess0 "LIST" []
    (by simp [authCmds])).1 rfl

/-- C7: USER always answers 331 and leaves the whole session state
unchanged, for any parameter; PASS unconditionally sets the session to
Authenticated with 230, for any parameter and any prior state (no
prior USER is required). -/
theorem user_331_pass_authenticates (srv : FTPServer) (env : Env)
    (sess : Session) (pu pp : List Char) :
    handleCommand srv env sess "USER" pu
      = (true, sess, [Ev.resp 331 "User name okay, need password".data]) ∧
    handleCommand srv env sess "PASS" pp
      = (true, { sess with authenticated := true },
          [Ev.resp 230 "User logged in, proceed".data]) := by
  constructor
  · unfold handleCommand; rw [parseVerb_USER]
  · unfold handleCommand; rw [parseVerb_PASS]

/-- C10: the dispatcher signals session termination (returns `false`)
exactly for the QUIT verb; every other verb, known or unknown,
authenticated or not, keeps the command loop running. -/
theorem dispatcher_terminates_iff_quit (srv : FTPServer) (env : Env)
    (sess : Session) (command : String) (param : List Char) :
    (handleCommand srv env sess command param).1 = false ↔
      command = "QUIT" := by
  constructor
  · intro h
    unfold handleCommand at h
    cases hv : parseVerb command <;> rw [hv] at h <;>
      first
        | exact parseVerb_quit_inv hv
        | (cases hb : sess.authenticated <;> simp [hb] at h)
  · rintro rfl
    unfold handleCommand
    rw [parseVerb_QUIT]

theorem handlePassive_trace_head (env : Env) (s : Session) (c : Nat)
    (h : s.dataConn = some c) :
    ∃ rest, (handlePassive env s).2 = Ev.closeData c :: rest := by
  unfold handlePassive closeOldData
  rw [h]
  cases env.pasvListen <;> cases hps : env.pasvSplitOk <;>
    cases env.pasvAccept <;> exact ⟨_, rfl⟩

/-- C2: entering passive (PASV) or active (PORT) mode first closes and
clears any previously stored data channel, before anything else happens
(the `closeData` of the old channel heads the event trace); the
resulting slot is determined solely by the new negotiation's outcome;
replaying the trace over the live-channel set shows the set afterwards
is exactly the new slot, hence at most one data channel is live; and
issuing PASV twice closes the channel accepted by the first PASV before
anything the second PASV does. -/
theorem data_channel_exclusive (env env2 : Env) (sess : Session)
    (param : List Char) :
    (∀ c, sess.dataConn = some c →
      (handlePassive env sess).2.head? = some (Ev.closeData c) ∧
      (handlePort env sess param).2.head? = some (Ev.closeData c)) ∧
    ((handlePassive env sess).1.dataConn
      = if env.pasvListen.isSome = true ∧ env.pasvSplitOk = true
        then env.pasvAccept else none) ∧
    ((handlePort env sess param).1.dataConn
      = if (splitOn ',' param).length = 6 then env.portDial else none) ∧
    (liveAfter sess.dataConn.toList (handlePassive env sess).2
      = (handlePassive env sess).1.dataConn.toList) ∧
    (liveAfter sess.dataConn.toList (handlePort env sess param).2
      = (handlePort env sess param).1.dataConn.toList) ∧
    ((liveAfter sess.dataConn.toList (handlePassive env sess).2).length
      ≤ 1) ∧
    ((liveAfter sess.dataConn.toList (handlePort env sess param).2).length
      ≤ 1) ∧
    (∀ c1, env.pasvAccept = some c1 → env.pasvListen.isSome = true →
      env.pasvSplitOk = true →
      ∃ rest, (handlePassive env2 (handlePassive env sess).1).2
        = Ev.closeData c1 :: rest) := by
  refine ⟨?_, ?_, ?_, ?_, ?_, ?_, ?_, ?_⟩
  · intro c hdc
    constructor
    · unfold handlePassive closeOldData
      rw [hdc]
      cases env.pasvListen <;> cases hps : env.pasvSplitOk <;>
        cases env.pasvAccept <;> simp
    · unfold handlePort closeOldData
      rw [hdc]
      by_cases h6 : (splitOn ',' param).length ≠ 6 <;>
        cases env.portDial <;> simp [h6]
  · unfold handlePassive closeOldData
    cases hdc : sess.dataConn <;> cases hpl : env.pasvListen <;>
      cases hps : env.pasvSplitOk <;> cases hpa : env.pasvAccept <;>
        simp [hdc, hpl, hps, hpa]
  · unfold handlePort closeOldData
    cases hdc : sess.dataConn <;> cases hpd : env.portDial <;>
      by_cases h6 : (splitOn ',' param).length = 6 <;>
        simp [hdc, hpd, h6]
  · unfold handlePassive closeOldData
    cases hdc : sess.dataConn <;> cases hpl : env.pasvListen <;>
      cases hps : env.pasvSplitOk <;> cases hpa : env.pasvAccept <;>
        simp [hdc, hpl, hps, hpa, liveAfter]
  · unfold handlePort closeOldData
    cases hdc : sess.dataConn <;> cases hpd : env.portDial <;>
      by_cases h6 : (splitOn ',' param).length = 6 <;>
        simp [hdc, hpd, h6, liveAfter]
  · unfold handlePassive closeOldData
    cases hdc : sess.dataConn <;> cases hpl : env.pasvListen <;>
      cases hps : env.pasvSplitOk <;> cases hpa : env.pasvAccept <;>
        simp [hdc, hpl, hps, hpa, liveAfter]
  · unfold handlePort closeOldData
    cases hdc : sess.dataConn <;> cases hpd : env.portDial <;>
      by_cases h6 : (splitOn ',' param).length = 6 <;>
        simp [hdc, hpd, h6, liveAfter]
  · intro c1 hacc hlis hspl
    have h1 : (handlePassive env sess).1.dataConn = some c1 := by
      unfold handlePassive closeOldData
      cases hdc : sess.dataConn <;> cases hpl : env.pasvListen <;>
        simp_all
    exact handlePassive_trace_head env2 _ c1 h1

/-- Witness for C2: starting from a session whose slot holds channel 5,
PASV's first event closes channel 5; and after a successful PASV
(accepting channel 1), a second PASV's first event closes channel 1. -/
theorem data_channel_exclusive_witness :
    (handlePassive env0 ⟨true, "/".data, some 5⟩).2.head?
      = some (Ev.closeData 5) ∧
    ∃ rest, (handlePassive env0 (handlePassive env0 sess0).1).2
      = Ev.closeData 1 :: rest :=
  ⟨((data_channel_exclusive env0 env0 ⟨true, "/".data, some 5⟩ []).1
      5 rfl).1,
    (data_channel_exclusive env0 env0 sess0 []).2.2.2.2.2.2.2
      1 rfl rfl rfl⟩

/-- C3: LIST, RETR and STOR each answer 425 "Use PORT or PASV first"
and change nothing when the data-channel slot is empty; when a channel
is present, every path through the handler ends with that channel
closed (the trailing `closeData` event, from the `defer`) and the slot
cleared; and a RETR whose file fails to open answers 550 "File not
found" with the channel still closed and cleared. -/
theorem transfer_channel_discipline (srv : FTPServer) (env : Env)
    (sess : Session) (param : List Char) :
    (sess.dataConn = none →
      handleList srv env sess param
        = (sess, [Ev.resp 425 "Use PORT or PASV first".data]) ∧
      handleRetrieve srv env sess param
        = (sess, [Ev.resp 425 "Use PORT or PASV first".data]) ∧
      handleStore srv env sess param
        = (sess, [Ev.resp 425 "Use PORT or PASV first".data])) ∧
    (∀ c, sess.dataConn = some c →
      ((handleList srv env sess param).1.dataConn = none ∧
        (handleList srv env sess param).2.getLast?
          = some (Ev.closeData c)) ∧
      ((handleRetrieve srv env sess param).1.dataConn = none ∧
        (handleRetrieve srv env sess param).2.getLast?
          = some (Ev.closeData c)) ∧
      ((handleStore srv env sess param).1.dataConn = none ∧
        (handleStore srv env sess param).2.getLast?
          = some (Ev.closeData c))) ∧
    (∀ c, sess.dataConn = some c →
      env.openFile (goJoin srv.rootDir (goClean param)) = false →
      handleRetrieve srv env sess param
        = ({ sess with dataConn := none },
            [Ev.resp 550 "File not found".data, Ev.closeData c])) := by
  refine ⟨?_, ?_, ?_⟩
  · intro hdc
    unfold handleList handleRetrieve handleStore
    rw [hdc]
    simp
  · intro c hdc
    refine ⟨?_, ?_, ?_⟩
    · unfold handleList
      rw [hdc]
      dsimp only
      repeat' split
      all_goals simp
    · unfold handleRetrieve
      rw [hdc]
      dsimp only
      repeat' split
      all_goals simp
    · unfold handleStore
      rw [hdc]
      dsimp only
      repeat' split
      all_goals simp
  · intro c hdc hopen
    unfold handleRetrieve
    rw [hdc]
    simp [hopen]

/-- Witness for C3: with no data channel, RETR answers 425 and changes
nothing; with channel 5 present and a file that fails to open, RETR
answers 550 and ends with channel 5 closed and the slot cleared. -/
theorem transfer_channel_discipline_witness :
    handleRetrieve srv0 env0 sess0 "a.txt".data
      = (sess0, [Ev.resp 425 "Use PORT or PASV first".data]) ∧
    handleRetrieve srv0
      { env0 with openFile := fun _ => false }
      ⟨true, "/".data, some 5⟩ "a.txt".data
      = (⟨true, "/".data, none⟩,
          [Ev.resp 550 "File not found".data, Ev.closeData 5]) :=
  ⟨((transfer_channel_discipline srv0 env0 sess0 "a.txt".data).1
      rfl).2.1,
    (transfer_channel_discipline srv0 { env0 with openFile := fun _ => false }
      ⟨true, "/".data, some 5⟩ "a.txt".data).2.2 5 rfl rfl⟩

/-- C4: the address-tuple encoding and decoding used for PASV
responses and PORT parameters are mutually inverse: decoding the
encoded payload of any valid 6-component tuple returns exactly that
tuple, and `p1*256 + p2` with `p1 = port / 256`, `p2 = port % 256`
reconstructs every port in `[0, 65535]` exactly. -/
theorem pasv_codec_roundtrip :
    (∀ h1 h2 h3 h4 p1 p2 : Nat, h1 ≤ 255 → h2 ≤ 255 → h3 ≤ 255 →
      h4 ≤ 255 → p1 ≤ 255 → p2 ≤ 255 →
      decodePasvTuple (encodePasvPayload h1 h2 h3 h4 p1 p2)
        = some [(h1 : Int), h2, h3, h4, p1, p2]) ∧
    (∀ port : Nat, port ≤ 65535 →
      portFromPair (pasvPortHi port) (pasvPortLo port) = (port : Int)) := by
  constructor
  · intro h1 h2 h3 h4 p1 p2 _ _ _ _ _ _
    exact decode_encode_pasv h1 h2 h3 h4 p1 p2
  · intro port _
    unfold portFromPair pasvPortHi pasvPortLo
    omega

/-- Witness for C4: the tuple (127,0,0,1,7,231) round-trips, and the
port 2023 = 7*256 + 231 is reconstructed exactly. -/
theorem pasv_codec_roundtrip_witness :
    decodePasvTuple (encodePasvPayload 127 0 0 1 7 231)
      = some [127, 0, 0, 1, 7, 231] ∧
    portFromPair (pasvPortHi 2023) (pasvPortLo 2023) = 2023 :=
  ⟨pasv_codec_roundtrip.1 127 0 0 1 7 231 (by decide) (by decide)
      (by decide) (by decide) (by decide) (by decide),
    pasv_codec_roundtrip.2 2023 (by decide)⟩

/-- C5 counterexample: the claim requires that a line is accepted only
when its first three bytes are ASCII digits, but the decoder accepts
the line `"+12 ok\n"` (with code 12): `strconv.Atoi` permits a leading
sign, and the decoder checks only the fourth byte and `Atoi` success. -/
theorem resp_decoder_counterexample :
    readResponse [("+12 ok\n").data] = some (12, "ok".data, []) ∧
    isDigitCh '+' = false := by
  constructor <;> decide

/-- C5 (amended): the decoder accepts a first line exactly when it has
at least four bytes, its fourth byte is a space or hyphen, and its
first three bytes parse under `strconv.Atoi` (decimal digits with an
optional leading sign); a space terminates the response, a hyphen
starts a continuation that persists until a line whose first three
bytes equal the `Itoa` rendering of the opening code with a space
fourth byte; any other first-line layout is an error, and a
continuation that never closes (input exhausted) is an error — a
partial response is never returned. -/
theorem resp_decoder_amended :
    (∀ (l : List Char) (ls : List (List Char)), ¬respLineAccepted l →
      readResponse (l :: ls) = none) ∧
    (∀ (l : List Char) (ls : List (List Char)) (code : Int),
      respLineAccepted l → goAtoi (l.take 3) = some code →
      l[3]? = some ' ' →
      readResponse (l :: ls) = some (code, trimSpace (l.drop 4), ls)) ∧
    (∀ (l : List Char) (ls : List (List Char)) (code : Int),
      respLineAccepted l → goAtoi (l.take 3) = some code →
      l[3]? = some '-' →
      readResponse (l :: ls)
        = (readMulti (goItoa code) (trimSpace (l.drop 4)) ls).map
            (fun r => (code, r.1, r.2))) ∧
    (∀ (codeStr acc : List Char) (ls : List (List Char)),
      (∀ l ∈ ls, ¬closesMulti codeStr l) →
      readMulti codeStr acc ls = none) ∧
    (∀ (codeStr acc l : List Char) (ls : List (List Char)),
      closesMulti codeStr l →
      readMulti codeStr acc (l :: ls)
        = some (acc ++ '\n' :: trimSpace (l.drop 4), ls)) ∧
    (∀ (codeStr acc l : List Char) (ls : List (List Char)),
      ¬closesMulti codeStr l →
      readMulti codeStr acc (l :: ls)
        = readMulti codeStr (acc ++ '\n' :: trimSpace l) ls) ∧
    readResponse [] = none := by
  refine ⟨?_, ?_, ?_, ?_, ?_, ?_, rfl⟩
  · intro l ls hna
    simp only [readResponse]
    by_cases hlay : 4 ≤ l.length ∧ (l[3]? = some ' ' ∨ l[3]? = some '-')
    · rw [if_pos hlay]
      cases hat : goAtoi (l.take 3) with
      | none => rfl
      | some code =>
          exact absurd ⟨hlay.1, hlay.2, by rw [hat]; rfl⟩ hna
    · rw [if_neg hlay]
  · intro l ls code hacc hat hsp
    have hne : ¬(l[3]? = some '-') := by rw [hsp]; decide
    simp only [readResponse]
    rw [if_pos ⟨hacc.1, hacc.2.1⟩]
    simp only [hat]
    rw [if_neg hne]
  · intro l ls code hacc hat hda
    simp only [readResponse]
    rw [if_pos ⟨hacc.1, hacc.2.1⟩]
    simp only [hat]
    rw [if_pos hda]
  · intro codeStr acc ls h
    induction ls generalizing acc with
    | nil => rfl
    | cons l ls ih =>
        simp only [readMulti]
        rw [if_neg (h l (by simp))]
        exact ih _ (fun x hx => h x (by simp [hx]))
  · intro codeStr acc l ls h
    simp only [readMulti]
    rw [if_pos h]
  · intro codeStr acc l ls h
    simp only [readMulti]
    rw [if_neg h]

/-- Witness for C5 (amended): a single-line response `"220 Ready\n"` is
decoded to code 220 with message `"Ready"`, and a malformed line
`"ab\n"` is rejected. -/
theorem resp_decoder_amended_witness :
    readResponse [("220 Ready\n").data]
      = some (220, "Ready".data, []) ∧
    readResponse [("ab\n").data] = none :=
  ⟨by
    have h := resp_decoder_amended.2.1 ("220 Ready\n").data [] 220
      (by decide) (by decide) (by decide)
    simpa using h,
   resp_decoder_amended.1 ("ab\n").data [] (by decide)⟩

/-- C6: CWD/CDUP resolution: an absolute parameter resolves
independently of the current working directory (it replaces it rather
than being joined), a relative parameter is joined to the working
directory and lexically normalized, the stored result always begins
with `/`; when the real path (root joined with the virtual path) does
not exist or is not a directory the working directory is unchanged and
550 "Directory not found" is answered, otherwise the resolved path is
stored with 250; and resolving `..` from `/` stays at `/`. -/
theorem change_dir_resolution (srv : FTPServer) (env : Env)
    (sess : Session) (param : List Char) :
    (∀ wd wd' p : List Char, p.head? = some '/' →
      resolveCwd wd p = resolveCwd wd' p) ∧
    (∀ wd p : List Char, p.head? ≠ some '/' →
      resolveCwd wd p
        = (if (goClean (goJoin wd p)).head? = some '/'
           then goClean (goJoin wd p)
           else '/' :: goClean (goJoin wd p))) ∧
    (∀ wd p : List Char, (resolveCwd wd p).head? = some '/') ∧
    (env.stat (goJoin srv.rootDir (resolveCwd sess.workDir param))
        ≠ some true →
      handleChangeDir srv env sess param
        = (sess, [Ev.resp 550 "Directory not found".data])) ∧
    (env.stat (goJoin srv.rootDir (resolveCwd sess.workDir param))
        = some true →
      handleChangeDir srv env sess param
        = ({ sess with workDir := resolveCwd sess.workDir param },
            [Ev.resp 250 "Directory successfully changed".data])) ∧
    resolveCwd "/".data "..".data = "/".data := by
  refine ⟨?_, ?_, ?_, ?_, ?_, by decide⟩
  · intro wd wd' p hp
    unfold resolveCwd
    simp [hp]
  · intro wd p hp
    unfold resolveCwd
    simp [hp]
  · intro wd p
    simp only [resolveCwd]
    by_cases hp : p.head? = some '/'
    · rw [if_pos hp]
      by_cases hx : (goClean p).head? = some '/'
      · rw [if_pos hx]; exact hx
      · rw [if_neg hx]
        rfl
    · rw [if_neg hp]
      by_cases hx : (goClean (goJoin wd p)).head? = some '/'
      · rw [if_pos hx]; exact hx
      · rw [if_neg hx]
        rfl
  · intro h
    simp only [handleChangeDir]
  · intro h
    simp only [handleChangeDir, h]

/-- Witness for C6: with every path existing as a directory, CWD to
`pub` from `/` stores `/pub` and answers 250; and with no path
existing, the working directory is unchanged with 550. -/
theorem change_dir_resolution_witness :
    handleChangeDir srv0 env0 ⟨true, "/".data, none⟩ "pub".data
      = (⟨true, "/pub".data, none⟩,
          [Ev.resp 250 "Directory successfully changed".data]) ∧
    handleChangeDir srv0 { env0 with stat := fun _ => none }
      ⟨true, "/".data, none⟩ "pub".data
      = (⟨true, "/".data, none⟩,
          [Ev.resp 550 "Directory not found".data]) := by
  constructor
  · have h := (change_dir_resolution srv0 env0
      ⟨true, "/".data, none⟩ "pub".data).2.2.2.2.1 rfl
    rw [h]
    rfl
  · exact (change_dir_resolution srv0 { env0 with stat := fun _ => none }
      ⟨true, "/".data, none⟩ "pub".data).2.2.2.1 (by decide)

/-- C8 counterexample: after the byte copy, a completion response with
code 500 (neither 226 nor 250) makes the `Get`/`Put` epilogue return
the "unexpected response after transfer" error — so the claim that a
bad completion code does not constitute a returned failure is false
(the data channel is still closed and cleared first). -/
theorem transfer_completion_counterexample :
    (clientTransferTail ⟨some 7⟩ [("500 Oops\n").data]).2
      = Except.error (TransferErr.unexpectedCode 500 "Oops".data) ∧
    (clientTransferTail ⟨some 7⟩ [("500 Oops\n").data]).1.dataConn
      = none := by
  constructor <;> rfl

/-- C8 (amended): the post-copy tail of `Get`/`Put` closes and clears
the data channel and reads exactly one more control response; a
completion code of 226 or 250 lets the operation continue without
error, and any other code (or a failed read) makes the operation
return an error. -/
theorem transfer_completion_amended (st : ClientConn)
    (input : List (List Char)) :
    ((clientTransferTail st input).1.dataConn = none) ∧
    (∀ (code : Int) (msg : List Char) (rest : List (List Char)),
      readResponse input = some (code, msg, rest) →
      ((code = 226 ∨ code = 250) →
        (clientTransferTail st input).2 = Except.ok rest) ∧
      (code ≠ 226 → code ≠ 250 →
        (clientTransferTail st input).2
          = Except.error (TransferErr.unexpectedCode code msg))) ∧
    (readResponse input = none →
      (clientTransferTail st input).2
        = Except.error TransferErr.readFailed) := by
  refine ⟨rfl, ?_, ?_⟩
  · intro code msg rest h
    unfold clientTransferTail transferEpilogue
    simp only [h]
    constructor
    · intro hc
      have : ¬(code ≠ 226 ∧ code ≠ 250) := by
        rcases hc with rfl | rfl <;> simp
      rw [if_neg this]
    · intro h1 h2
      rw [if_pos ⟨h1, h2⟩]
  · intro h
    unfold clientTransferTail transferEpilogue
    simp only [h]

/-- Witness for C8 (amended): a 226 completion response yields no
error, consuming exactly that response. -/
theorem transfer_completion_amended_witness :
    (clientTransferTail ⟨some 3⟩ [("226 Done\n").data]).2
      = Except.ok [] :=
  ((transfer_completion_amended ⟨some 3⟩ [("226 Done\n").data]).2.1
    226 "Done".data [] (by decide)).1 (Or.inl rfl)

/-! ## Supporting lemmas for the connection-string parser (C9) -/

theorem breakAtFirst_not_mem {c : Char} {l : List Char} (h : c ∉ l) :
    breakAtFirst c l = none := by
  induction l with
  | nil => rfl
  | cons x xs ih =>
      have hx : ¬x = c := fun he => h (by simp [he])
      rw [breakAtFirst, if_neg hx, ih (fun hm => h (by simp [hm]))]
      rfl

theorem breakAtFirst_append {c : Char} {xs ys : List Char} (h : c ∉ xs) :
    breakAtFirst c (xs ++ c :: ys) = some (xs, ys) := by
  induction xs with
  | nil => simp [breakAtFirst]
  | cons x xs ih =>
      have hx : ¬x = c := fun he => h (by simp [he])
      rw [List.cons_append, breakAtFirst, if_neg hx,
        ih (fun hm => h (by simp [hm]))]
      rfl

theorem breakAtLast_not_mem {c : Char} {l : List Char} (h : c ∉ l) :
    breakAtLast c l = none := by
  unfold breakAtLast
  rw [breakAtFirst_not_mem (fun hm => h (List.mem_reverse.mp hm))]
  rfl

theorem breakAtLast_append {c : Char} {xs ys : List Char} (h : c ∉ ys) :
    breakAtLast c (xs ++ c :: ys) = some (xs, ys) := by
  unfold breakAtLast
  have hrev : (xs ++ c :: ys).reverse = ys.reverse ++ c :: xs.reverse := by
    simp
  rw [hrev, breakAtFirst_append (fun hm => h (List.mem_reverse.mp hm))]
  simp

theorem stripBrackets_id {h : List Char} (hb : '[' ∉ h) :
    stripBrackets h = h := by
  unfold stripBrackets
  cases h with
  | nil => rfl
  | cons x xs =>
      have hx : ¬x = '[' := fun he => hb (by simp [he])
      exact if_neg (fun hc => hx (by simpa using hc.1))

theorem not_mem_of_all_pred {p : Char → Bool} {l : List Char} {c : Char}
    (h : l.all p = true) (hc : p c = false) : c ∉ l := by
  intro hm
  rw [List.all_eq_true] at h
  exact absurd (h c hm) (by simp [hc])

theorem natRepr_all_digits (n : Nat) :
    (natRepr n).all isDigitCh = true := by
  rw [List.all_eq_true]
  intro c hc
  exact mem_natRepr_isDigit hc

theorem take_ftp_head (rest : List Char) :
    ("ftp://".data ++ rest).take 6 = "ftp://".data := by
  have h6 : ("ftp://".data).length = 6 := rfl
  rw [← h6, List.take_left]

theorem drop_ftp_head (rest : List Char) :
    ("ftp://".data ++ rest).drop 6 = rest := by
  have h6 : ("ftp://".data).length = 6 := rfl
  rw [← h6, List.drop_left]

theorem take_ne_ftp {s : List Char} (h : '/' ∉ s) :
    s.take 6 ≠ "ftp://".data := by
  intro he
  exact h (List.take_subset 6 s (by rw [he]; decide))

theorem parseHostPort_with_port {h d : List Char} (hcd : ':' ∉ d)
    (hdd : d.all isDigitCh = true) (hbr : '[' ∉ h) :
    parseHostPort (h ++ ':' :: d) = some (h, d) := by
  unfold parseHostPort
  rw [breakAtLast_append hcd]
  simp [hdd, stripBrackets_id hbr]

theorem parseHostPort_no_port {h : List Char} (hc : ':' ∉ h)
    (hbr : '[' ∉ h) :
    parseHostPort h = some (h, []) := by
  unfold parseHostPort
  rw [breakAtLast_not_mem hc]
  simp [stripBrackets_id hbr]

theorem unescapeUserinfo_id {u : List Char} (h : '%' ∉ u) :
    unescapeUserinfo u = some u := by
  induction u with
  | nil => rfl
  | cons c cs ih =>
      have hc : ¬c = '%' := fun he => h (by simp [he])
      have ih2 := ih (fun hm => h (by simp [hm]))
      cases cs with
      | nil =>
          rw [unescapeUserinfo, if_neg hc]
          rfl
          intro h1 h2 r hx
          exact List.noConfusion hx
      | cons x xs =>
          cases xs with
          | nil =>
              rw [unescapeUserinfo, if_neg hc, ih2]
              rfl
              intro h1 h2 r hx
              simp at hx
          | cons y ys => rw [unescapeUserinfo, if_neg hc, ih2]; rfl

theorem parseAuthority_eval {U HP u1 p1 u2 p2 h d : List Char}
    (haHP : '@' ∉ HP) (hU : U.all validUserinfoChar = true)
    (hcr : breakAtFirst ':' U = some (u1, p1))
    (hhp : parseHostPort HP = some (h, d))
    (hu1 : unescapeUserinfo u1 = some u2)
    (hp1 : unescapeUserinfo p1 = some p2) :
    parseAuthority (U ++ '@' :: HP) = some (some (u2, some p2), h, d) := by
  unfold parseAuthority
  rw [breakAtLast_append haHP]
  simp only [hU, hhp, hcr, hu1, hp1]
  rfl

theorem goURLParseFtp_nopath {A : List Char}
    {r : Option (List Char × Option (List Char)) × List Char × List Char}
    (hsA : '/' ∉ A) (hpa : parseAuthority A = some r) :
    goURLParseFtp ("ftp://".data ++ A) = some ⟨r.1, r.2.1, r.2.2, []⟩ := by
  unfold goURLParseFtp
  rw [if_pos (take_ftp_head A), drop_ftp_head,
    breakAtFirst_not_mem hsA, hpa]

theorem goURLParseFtp_path {A path : List Char}
    {r : Option (List Char × Option (List Char)) × List Char × List Char}
    (hsA : '/' ∉ A) (hpa : parseAuthority A = some r) :
    goURLParseFtp ("ftp://".data ++ A ++ '/' :: path)
      = some ⟨r.1, r.2.1, r.2.2, '/' :: path⟩ := by
  unfold goURLParseFtp
  rw [List.append_assoc, if_pos (take_ftp_head (A ++ '/' :: path)),
    drop_ftp_head, breakAtFirst_append hsA]
  dsimp only
  rw [hpa]

/-- The port selection applied to a rendered decimal port: the
rendered digits parse back to the same value. -/
theorem portVal_natRepr (port : Nat) : portVal (natRepr port) = (port : Int) := by
  unfold portVal
  rw [if_pos (natRepr_ne_nil port), goAtoi_natRepr]

/-- C9: the connection-string parser maps the four input forms
`host`, `host:port`, `user:pass@host:port` and a full `ftp://` URL to
`(host, port, user, password)`, defaulting port 21, user `anonymous`
and password `guest@` for every omitted component and returning the
supplied components otherwise — for inputs whose host uses ordinary
host characters, whose user/password use valid userinfo characters
with no `:` in the user name and no percent-escapes (on escape-free
userinfo Go's percent-unescaping, which the model performs, is the
identity), and whose port is a valid port number. -/
theorem connection_string_forms
    (host user pass path : List Char) (port : Nat)
    (hhostne : host ≠ []) (hhostc : host.all isHostChar = true)
    (huser : user.all validUserinfoChar = true)
    (hpass : pass.all validUserinfoChar = true)
    (hucol : ':' ∉ user) (hupct : '%' ∉ user) (hppct : '%' ∉ pass)
    (hport : port ≤ 65535) :
    parseConnectionString host
      = (host, 21, "anonymous".data, "guest@".data) ∧
    parseConnectionString (host ++ ':' :: natRepr port)
      = (host, (port : Int), "anonymous".data, "guest@".data) ∧
    parseConnectionString (user ++ ':' :: pass ++ '@' :: host
        ++ ':' :: natRepr port)
      = (host, (port : Int), user, pass) ∧
    parseConnectionString ("ftp://".data ++ user ++ ':' :: pass
        ++ '@' :: host ++ ':' :: natRepr port ++ '/' :: path)
      = (host, (port : Int), user, pass) := by
  have hostNoAt : '@' ∉ host := not_mem_of_all_pred hhostc (by decide)
  have hostNoColon : ':' ∉ host := not_mem_of_all_pred hhostc (by decide)
  have hostNoSlash : '/' ∉ host := not_mem_of_all_pred hhostc (by decide)
  have hostNoBr : '[' ∉ host := not_mem_of_all_pred hhostc (by decide)
  have digAll := natRepr_all_digits port
  have digNoColon : ':' ∉ natRepr port := not_mem_of_all_pred digAll (by decide)
  have digNoAt : '@' ∉ natRepr port := not_mem_of_all_pred digAll (by decide)
  have digNoSlash : '/' ∉ natRepr port := not_mem_of_all_pred digAll (by decide)
  have userNoSlash : '/' ∉ user := not_mem_of_all_pred huser (by decide)
  have passNoSlash : '/' ∉ pass := not_mem_of_all_pred hpass (by decide)
  have hdefU : ("anonymous".data ++ ':' :: "guest@".data).all
      validUserinfoChar = true := by decide
  have hdefCr : breakAtFirst ':' ("anonymous".data ++ ':' :: "guest@".data)
      = some ("anonymous".data, "guest@".data) :=
    breakAtFirst_append (by decide)
  have hUall : (user ++ ':' :: pass).all validUserinfoChar = true := by
    have hcv : validUserinfoChar ':' = true := by decide
    simp [List.all_append, List.all_cons, huser, hpass, hcv]
  have hUcr : breakAtFirst ':' (user ++ ':' :: pass) = some (user, pass) :=
    breakAtFirst_append hucol
  have hdefUn1 : unescapeUserinfo "anonymous".data
      = some "anonymous".data := unescapeUserinfo_id (by decide)
  have hdefUn2 : unescapeUserinfo "guest@".data
      = some "guest@".data := unescapeUserinfo_id (by decide)
  have hUn1 : unescapeUserinfo user = some user := unescapeUserinfo_id hupct
  have hUn2 : unescapeUserinfo pass = some pass := unescapeUserinfo_id hppct
  have hHP2NoAt : '@' ∉ host ++ ':' :: natRepr port := by
    intro hm
    rcases List.mem_append.mp hm with h | h
    · exact hostNoAt h
    · rcases List.mem_cons.mp h with h | h
      · exact absurd h (by decide)
      · exact digNoAt h
  have hHP2NoSlash : '/' ∉ host ++ ':' :: natRepr port := by
    intro hm
    rcases List.mem_append.mp hm with h | h
    · exact hostNoSlash h
    · rcases List.mem_cons.mp h with h | h
      · exact absurd h (by decide)
      · exact digNoSlash h
  have hUINoSlash : '/' ∉ "anonymous".data ++ ':' :: "guest@".data := by
    decide
  have hU3NoSlash : '/' ∉ user ++ ':' :: pass := by
    intro hm
    rcases List.mem_append.mp hm with h | h
    · exact userNoSlash h
    · rcases List.mem_cons.mp h with h | h
      · exact absurd h (by decide)
      · exact passNoSlash h
  have hA1NoSlash :
      '/' ∉ ("anonymous".data ++ ':' :: "guest@".data) ++ '@' :: host := by
    intro hm
    rcases List.mem_append.mp hm with h | h
    · exact hUINoSlash h
    · rcases List.mem_cons.mp h with h | h
      · exact absurd h (by decide)
      · exact hostNoSlash h
  have hA2NoSlash :
      '/' ∉ ("anonymous".data ++ ':' :: "guest@".data)
        ++ '@' :: (host ++ ':' :: natRepr port) := by
    intro hm
    rcases List.mem_append.mp hm with h | h
    · exact hUINoSlash h
    · rcases List.mem_cons.mp h with h | h
      · exact absurd h (by decide)
      · exact hHP2NoSlash h
  have hA3NoSlash :
      '/' ∉ (user ++ ':' :: pass)
        ++ '@' :: (host ++ ':' :: natRepr port) := by
    intro hm
    rcases List.mem_append.mp hm with h | h
    · exact hU3NoSlash h
    · rcases List.mem_cons.mp h with h | h
      · exact absurd h (by decide)
      · exact hHP2NoSlash h
  have hpa1 : parseAuthority
      (("anonymous".data ++ ':' :: "guest@".data) ++ '@' :: host)
      = some (some ("anonymous".data, some "guest@".data), host, []) :=
    parseAuthority_eval hostNoAt hdefU hdefCr
      (parseHostPort_no_port hostNoColon hostNoBr) hdefUn1 hdefUn2
  have hpa2 : parseAuthority
      (("anonymous".data ++ ':' :: "guest@".data)
        ++ '@' :: (host ++ ':' :: natRepr port))
      = some (some ("anonymous".data, some "guest@".data), host,
          natRepr port) :=
    parseAuthority_eval hHP2NoAt hdefU hdefCr
      (parseHostPort_with_port digNoColon digAll hostNoBr)
      hdefUn1 hdefUn2
  have hpa3 : parseAuthority
      ((user ++ ':' :: pass) ++ '@' :: (host ++ ':' :: natRepr port))
      = some (some (user, some pass), host, natRepr port) :=
    parseAuthority_eval hHP2NoAt hUall hUcr
      (parseHostPort_with_port digNoColon digAll hostNoBr) hUn1 hUn2
  refine ⟨?_, ?_, ?_, ?_⟩
  · have hn : normalizeConnStr host
        = "ftp://".data
          ++ (("anonymous".data ++ ':' :: "guest@".data) ++ '@' :: host) := by
      unfold normalizeConnStr
      rw [if_neg (take_ne_ftp hostNoSlash), if_neg hostNoAt]
      simp
    unfold parseConnectionString
    rw [hn, goURLParseFtp_nopath hA1NoSlash hpa1]
    rfl
  · have hnoAt : '@' ∉ host ++ ':' :: natRepr port := hHP2NoAt
    have hn : normalizeConnStr (host ++ ':' :: natRepr port)
        = "ftp://".data
          ++ (("anonymous".data ++ ':' :: "guest@".data)
            ++ '@' :: (host ++ ':' :: natRepr port)) := by
      unfold normalizeConnStr
      rw [if_neg (take_ne_ftp hHP2NoSlash), if_neg hnoAt]
      simp
    unfold parseConnectionString
    rw [hn, goURLParseFtp_nopath hA2NoSlash hpa2]
    dsimp only
    rw [portVal_natRepr]
    rfl
  · have hAt : '@' ∈ user ++ ':' :: pass ++ '@' :: host
        ++ ':' :: natRepr port := by simp
    have hI3NoSlash : '/' ∉ user ++ ':' :: pass ++ '@' :: host
        ++ ':' :: natRepr port := by
      intro hm
      rcases List.mem_append.mp hm with h | h
      · rcases List.mem_append.mp h with h | h
        · rcases List.mem_append.mp h with h | h
          · exact userNoSlash h
          · rcases List.mem_cons.mp h with h | h
            · exact absurd h (by decide)
            · exact passNoSlash h
        · rcases List.mem_cons.mp h with h | h
          · exact absurd h (by decide)
          · exact hostNoSlash h
      · rcases List.mem_cons.mp h with h | h
        · exact absurd h (by decide)
        · exact digNoSlash h
    have hn : normalizeConnStr (user ++ ':' :: pass ++ '@' :: host
          ++ ':' :: natRepr port)
        = "ftp://".data
          ++ ((user ++ ':' :: pass)
            ++ '@' :: (host ++ ':' :: natRepr port)) := by
      unfold normalizeConnStr
      rw [if_neg (take_ne_ftp hI3NoSlash), if_pos hAt]
      simp
    unfold parseConnectionString
    rw [hn, goURLParseFtp_nopath hA3NoSlash hpa3]
    dsimp only
    rw [portVal_natRepr]
    rfl
  · have he : "ftp://".data ++ user ++ ':' :: pass ++ '@' :: host
        ++ ':' :: natRepr port ++ '/' :: path
        = "ftp://".data
          ++ ((user ++ ':' :: pass) ++ '@' :: (host ++ ':' :: natRepr port))
          ++ '/' :: path := by
      simp
    have hn : normalizeConnStr ("ftp://".data ++ user ++ ':' :: pass
          ++ '@' :: host ++ ':' :: natRepr port ++ '/' :: path)
        = "ftp://".data
          ++ ((user ++ ':' :: pass) ++ '@' :: (host ++ ':' :: natRepr port))
          ++ '/' :: path := by
      unfold normalizeConnStr
      rw [if_pos (by rw [he, ← List.append_assoc]; exact take_ftp_head _)]
      exact he
    unfold parseConnectionString
    rw [hn, goURLParseFtp_path hA3NoSlash hpa3]
    dsimp only
    rw [portVal_natRepr]
    rfl

/-- Witness for C9: concrete instances of the four forms with host
`example.com`, port 2121, user `alice`, password `secret`, path
`f.txt`. -/
theorem connection_string_forms_witness :
    parseConnectionString "example.com".data
      = ("example.com".data, 21, "anonymous".data, "guest@".data) ∧
    parseConnectionString ("example.com".data ++ ':' :: natRepr 2121)
      = ("example.com".data, (2121 : Int), "anonymous".data,
          "guest@".data) ∧
    parseConnectionString ("alice".data ++ ':' :: "secret".data
        ++ '@' :: "example.com".data ++ ':' :: natRepr 2121)
      = ("example.com".data, (2121 : Int), "alice".data,
          "secret".data) :=
  have h := connection_string_forms "example.com".data "alice".data
    "secret".data "f.txt".data 2121 (by decide) (by decide) (by decide)
    (by decide) (by decide) (by decide) (by decide) (by decide)
  ⟨h.1, h.2.1, h.2.2.1⟩

end UltraFTP
